import Mathlib

/-!
Shallow embedding of the readimage-excel pipeline: the feature extractor
(`image_processor.py`) and the tabular exporter (`excel_exporter.py`).

Feature records (Python dicts mapping feature names to values) are modelled as
association lists `List (String × Value)` whose order is the dict's insertion
order; numeric Python values (int / float) are modelled as rationals.
External primitives (cv2.imread, pytesseract, os.path.getsize, np.mean,
cv2.Canny, cv2.kmeans) are modelled as a `Primitives` record holding the
outcome each primitive produces for the image under consideration.
-/

namespace ReadImageExcel

/-- A feature value: Python text, or a Python number (int / float, modelled
as a rational). -/
inductive Value where
  | str (s : String)
  | num (q : ℚ)
deriving DecidableEq, Repr

/-- A feature record: a Python dict in insertion order (keys unique in any
dict actually produced). -/
abbrev FeatureRecord := List (String × Value)

/-- One spreadsheet row. -/
abbrev Row := List Value

/-- The keys of a record, in insertion order (`features.keys()`). -/
def recordKeys (r : FeatureRecord) : List String :=
  r.map Prod.fst

/-- Python `features.get(key, default)`: the value stored at the first
occurrence of `key`, else the default. -/
def dictGet (r : FeatureRecord) (k : String) (dflt : Value) : Value :=
  match r with
  | [] => dflt
  | (k2, v) :: rest => if k2 = k then v else dictGet rest k dflt

/-- Python `features[key]` as a partial lookup (`None` when absent). -/
def dictLookup (r : FeatureRecord) (k : String) : Option Value :=
  match r with
  | [] => none
  | (k2, v) :: rest => if k2 = k then some v else dictLookup rest k

/-- Python `round(q, 2)`: scale by 100, round half to even (Python 3
`round` semantics on the exact value), scale back. -/
def roundHalfEven (q : ℚ) : ℤ :=
  let f := ⌊q⌋
  if q - f < 1 / 2 then f
  else if 1 / 2 < q - f then f + 1
  else if f % 2 = 0 then f else f + 1

/-- Two-decimal rounding, `round(x, 2)`. -/
def pyRound2 (q : ℚ) : ℚ :=
  (roundHalfEven (q * 100) : ℚ) / 100

/-! ## Excel exporter (`excel_exporter.py`)

The export methods are modelled as pure functions from the record list to the
grid of cell values appended to each sheet (`worksheet.append` calls, in
order).  Cosmetic styling (`style_header`, `auto_adjust_column_width`) and the
final `workbook.save` touch no cell values and are not modelled.  The
`ValueError("No features to export")` raised on an empty record list is the
spec's `EmptyInputError`. -/

/-- The one error the exporter raises: `ValueError("No features to export")`
(the spec's `EmptyInputError`). -/
inductive ExportErr where
  | emptyInput
deriving DecidableEq, Repr

/-- The set-union loop `all_keys.update(features.keys())`: every key of every
record, duplicates removed. -/
def allKeys (records : List FeatureRecord) : List String :=
  ((records.map recordKeys).flatten).dedup

/-- `headers = sorted(list(all_keys))`: the distinct keys in lexicographic
order. -/
def sortedHeaders (records : List FeatureRecord) : List String :=
  List.insertionSort (· ≤ ·) (allKeys records)

/-- One data row: `[features.get(key, "") for key in headers]`. -/
def rowFor (headers : List String) (r : FeatureRecord) : Row :=
  headers.map (fun k => dictGet r k (Value.str ""))

/-- `export_single_image`: header row `["Feature", "Value"]`, then one
`[key, value]` row per entry of the record in insertion order. -/
def export_single_image (features : FeatureRecord) : List Row :=
  [Value.str "Feature", Value.str "Value"] ::
    features.map (fun kv => [Value.str kv.1, kv.2])

/-- `export_multiple_images`: raises on an empty list before any workbook is
created; otherwise a header row of the sorted key union followed by one row
per record in input order. -/
def export_multiple_images (records : List FeatureRecord) :
    Except ExportErr (List Row) :=
  if records = [] then .error .emptyInput
  else
    let headers := sortedHeaders records
    .ok (headers.map Value.str :: records.map (rowFor headers))

/-- Python `f.get(key, 0)` read as a number for the summary sums.  The
records the summary is computed over carry numeric values at these keys;
a non-numeric value (which would raise `TypeError` in Python, outside the
behaviour specified here) is read as 0. -/
def getNum (r : FeatureRecord) (k : String) : ℚ :=
  match dictGet r k (Value.num 0) with
  | .num q => q
  | .str _ => 0

/-- `sum(f.get(key, 0) for f in features_list)`. -/
def sumGet (records : List FeatureRecord) (k : String) : ℚ :=
  (records.map (fun r => getNum r k)).sum

/-- The rows appended to the summary sheet of `export_with_summary`:
title, record count, then the conditional statistics rows. -/
def summaryRows (records : List FeatureRecord) (headers : List String) :
    List Row :=
  let n : ℚ := records.length
  let base : List Row :=
    [[Value.str "Summary", Value.str ""],
     [Value.str "Total Images Processed", Value.num records.length]]
  let withB : List Row :=
    if "avg_brightness" ∈ headers then
      base ++ [[Value.str "Average Brightness",
                Value.num (pyRound2 (sumGet records "avg_brightness" / n))]]
    else base
  if "width" ∈ headers ∧ "height" ∈ headers then
    withB ++ [[Value.str "Average Width",
               Value.num (pyRound2 (sumGet records "width" / n))],
              [Value.str "Average Height",
               Value.num (pyRound2 (sumGet records "height" / n))]]
  else withB

/-- The two sheets produced by `export_with_summary`: the summary sheet
(inserted first) and the data sheet. -/
structure SummaryExport where
  summary : List Row
  data : List Row
deriving DecidableEq, Repr

/-- `export_with_summary`: raises on an empty list; otherwise the data sheet
(as in `export_multiple_images`) plus the summary sheet. -/
def export_with_summary (records : List FeatureRecord) :
    Except ExportErr SummaryExport :=
  if records = [] then .error .emptyInput
  else
    let headers := sortedHeaders records
    .ok { summary := summaryRows records headers
          data := headers.map Value.str :: records.map (rowFor headers) }

/-! ## Image processor (`image_processor.py`)

Each public operation re-loads the image from its path; the outcome of every
external primitive call on that one path is therefore a fixed datum, collected
in `Primitives`. -/

/-- A decoded image (numpy array): `image.shape` is `(height, width)` or
`(height, width, channels)`; `channelsDim` is `shape[2]` when the array has a
third dimension. -/
structure Img where
  height : Nat
  width : Nat
  channelsDim : Option Nat
deriving DecidableEq, Repr

/-- The outcomes of the external primitives for one image path. -/
structure Primitives where
  /-- The image path passed in (becomes the `image_path` feature). -/
  path : String
  /-- `cv2.imread(image_path)`: the decoded image, or `None` on failure. -/
  loadResult : Option Img
  /-- Outcome of the `Image.open` + `pytesseract.image_to_string` block:
  the produced text, or the message of the exception it raised. -/
  ocrResult : Except String String
  /-- `os.path.getsize(image_path)` in bytes. -/
  fileSize : Nat
  /-- `np.mean(gray)` over the grayscale conversion. -/
  meanGray : ℚ
  /-- `int(np.sum(edges > 0))` after `cv2.Canny(gray, 100, 200)`. -/
  edgeCount : Nat
  /-- `cv2.kmeans(pixels, k, ...)` cluster centers (float32 values) for a
  given `k`. -/
  cluster : Nat → List (ℚ × ℚ × ℚ)

/-- Errors of the fail-fast extraction path.  `loadFailure` is the
`ValueError("Could not load image ...")` of `load_image` (the spec's
`DecodeError`); `zeroDivision` is the uncaught Python `ZeroDivisionError`
from `width / height` when the height is 0. -/
inductive ExtractionErr where
  | loadFailure
  | zeroDivision
deriving DecidableEq, Repr

/-- `load_image`: the decoded image, or `ValueError` when `cv2.imread`
returned `None`. -/
def load_image (P : Primitives) : Except ExtractionErr Img :=
  match P.loadResult with
  | none => .error .loadFailure
  | some img => .ok img

/-- `extract_text`: the whole body runs inside `try/except Exception`, so the
result is always a string — stripped OCR output on success, the diagnostic
`"Error extracting text: ..."` on any internal failure. -/
def extract_text (P : Primitives) : String :=
  match P.ocrResult with
  | .ok t => t.trim
  | .error e => "Error extracting text: " ++ e

/-- `get_image_properties`: loads the image and builds the six-entry
properties dict.  When `height = 0` the expression `width / height` raises
`ZeroDivisionError` while the dict literal is being evaluated, so no record is
produced. -/
def get_image_properties (P : Primitives) : Except ExtractionErr FeatureRecord :=
  match load_image P with
  | .error e => .error e
  | .ok img =>
    if img.height = 0 then .error .zeroDivision
    else
      .ok [("width", Value.num img.width),
           ("height", Value.num img.height),
           ("channels", Value.num (img.channelsDim.getD 1)),
           ("file_size_kb", Value.num (pyRound2 ((P.fileSize : ℚ) / 1024))),
           ("aspect_ratio",
             Value.num (pyRound2 ((img.width : ℚ) / (img.height : ℚ)))),
           ("total_pixels", Value.num ((img.width : ℚ) * (img.height : ℚ)))]

/-- Truncation toward zero of a rational, as the C `float → int` cast. -/
def truncQ (q : ℚ) : ℤ :=
  q.num.tdiv q.den

/-- `np.uint8(x)` on a float value: truncate toward zero, wrap modulo 256. -/
def npUint8 (q : ℚ) : ℕ :=
  (truncQ q % 256).toNat

/-- `np.uint8(centers)` applied to one RGB center. -/
def npUint8Triple (c : ℚ × ℚ × ℚ) : ℕ × ℕ × ℕ :=
  (npUint8 c.1, npUint8 c.2.1, npUint8 c.2.2)

/-- `detect_dominant_colors`: loads the image, clusters its pixels into
`nColors` groups, converts the float centers with `np.uint8`, and returns
them as integer RGB triples. -/
def detect_dominant_colors (P : Primitives) (nColors : Nat) :
    Except ExtractionErr (List (ℕ × ℕ × ℕ)) :=
  match load_image P with
  | .error e => .error e
  | .ok _ => .ok ((P.cluster nColors).map npUint8Triple)

/-- `calculate_brightness`: mean grayscale value rounded to 2 decimals. -/
def calculate_brightness (P : Primitives) : Except ExtractionErr ℚ :=
  match load_image P with
  | .error e => .error e
  | .ok _ => .ok (pyRound2 P.meanGray)

/-- `detect_edges`: the count of Canny edge pixels. -/
def detect_edges (P : Primitives) : Except ExtractionErr Nat :=
  match load_image P with
  | .error e => .error e
  | .ok _ => .ok P.edgeCount

/-- `f"RGB{color}"` where `color` is an `(r, g, b)` tuple. -/
def fmtRGB (c : ℕ × ℕ × ℕ) : String :=
  "RGB(" ++ toString c.1 ++ ", " ++ toString c.2.1 ++ ", " ++ toString c.2.2 ++ ")"

/-- The `for i, color in enumerate(dominant_colors)` loop body of
`extract_all_features`, started at index `i`: entry `dominant_color_{i+1}`
holds `f"RGB{color}"`. -/
def colorEntriesFrom (i : Nat) : List (ℕ × ℕ × ℕ) → FeatureRecord
  | [] => []
  | c :: cs =>
    ("dominant_color_" ++ toString (i + 1), Value.str (fmtRGB c)) ::
      colorEntriesFrom (i + 1) cs

/-- The `dominant_color_{i+1}` entries appended by the enumeration loop in
`extract_all_features`. -/
def colorEntries (colors : List (ℕ × ℕ × ℕ)) : FeatureRecord :=
  colorEntriesFrom 0 colors

/-- `extract_all_features`: composes path, OCR text, properties (fresh keys,
so `features.update(properties)` is an append), brightness, edge count and
the dominant-color entries; any fail-fast sub-operation error aborts the
record. -/
def extract_all_features (P : Primitives) : Except ExtractionErr FeatureRecord :=
  match get_image_properties P with
  | .error e => .error e
  | .ok props =>
    match calculate_brightness P with
    | .error e => .error e
    | .ok bright =>
      match detect_edges P with
      | .error e => .error e
      | .ok edges =>
        match detect_dominant_colors P 3 with
        | .error e => .error e
        | .ok colors =>
          .ok ([("image_path", Value.str P.path),
                ("extracted_text", Value.str (extract_text P))] ++ props ++
               [("avg_brightness", Value.num bright),
                ("edge_count", Value.num (edges : ℚ))] ++ colorEntries colors)

/-! ## Dict-store embedding of the export methods

To settle the frame property (the exporter never mutates the caller's
records), the export methods are re-expressed against an explicit store of
the caller's record objects.  Every Python operation the methods perform on a
record — `features.keys()`, `features.get(...)`, `features.items()` — is a
store operation returning its result together with the store after the
operation; the method bodies below perform exactly the source's sequence of
dict operations, threading the store through each one. -/

/-- `features.keys()` on record `i` of the store. -/
def dictKeysOp (s : List FeatureRecord) (i : Nat) :
    List String × List FeatureRecord :=
  (recordKeys (s.getD i []), s)

/-- `features.get(key, default)` on record `i` of the store. -/
def dictGetOp (s : List FeatureRecord) (i : Nat) (k : String) (dflt : Value) :
    Value × List FeatureRecord :=
  (dictGet (s.getD i []) k dflt, s)

/-- `features.items()` on a single record. -/
def dictItemsOp (r : FeatureRecord) : FeatureRecord × FeatureRecord :=
  (r, r)

/-- The `all_keys.update(features.keys())` loop over the store. -/
def gatherKeysSt (s : List FeatureRecord) : List String × List FeatureRecord :=
  (List.range s.length).foldl
    (fun acc i =>
      let ks := dictKeysOp acc.2 i
      (acc.1 ++ ks.1.filter (fun k => k ∉ acc.1), ks.2))
    ([], s)

/-- The row comprehension `[features.get(key, "") for key in headers]` over
record `i` of the store. -/
def rowSt (s : List FeatureRecord) (i : Nat) (headers : List String) :
    Row × List FeatureRecord :=
  headers.foldl
    (fun acc k =>
      let v := dictGetOp acc.2 i k (Value.str "")
      (acc.1 ++ [v.1], v.2))
    ([], s)

/-- The data-row loop over the whole store. -/
def rowsSt (s : List FeatureRecord) (headers : List String) :
    List Row × List FeatureRecord :=
  (List.range s.length).foldl
    (fun acc i =>
      let rw := rowSt acc.2 i headers
      (acc.1 ++ [rw.1], rw.2))
    ([], s)

/-- `sum(f.get(key, 0) for f in features_list)` over the store. -/
def sumGetSt (s : List FeatureRecord) (k : String) :
    ℚ × List FeatureRecord :=
  (List.range s.length).foldl
    (fun acc i =>
      let v := dictGetOp acc.2 i k (Value.num 0)
      (acc.1 + (match v.1 with | .num q => q | .str _ => 0), v.2))
    (0, s)

/-- `export_single_image` against the store of the one record passed in. -/
def export_single_image_st (r : FeatureRecord) : List Row × FeatureRecord :=
  let items := dictItemsOp r
  ([Value.str "Feature", Value.str "Value"] ::
     items.1.map (fun kv => [Value.str kv.1, kv.2]), items.2)

/-- `export_multiple_images` against the store of the caller's records. -/
def export_multiple_images_st (s : List FeatureRecord) :
    Except ExportErr (List Row) × List FeatureRecord :=
  if s = [] then (.error .emptyInput, s)
  else
    let ks := gatherKeysSt s
    let headers := List.insertionSort (· ≤ ·) ks.1
    let rows := rowsSt ks.2 headers
    (.ok (headers.map Value.str :: rows.1), rows.2)

/-- `export_with_summary` against the store of the caller's records. -/
def export_with_summary_st (s : List FeatureRecord) :
    Except ExportErr SummaryExport × List FeatureRecord :=
  if s = [] then (.error .emptyInput, s)
  else
    let ks := gatherKeysSt s
    let headers := List.insertionSort (· ≤ ·) ks.1
    let rows := rowsSt ks.2 headers
    let n : ℚ := s.length
    let base : List Row :=
      [[Value.str "Summary", Value.str ""],
       [Value.str "Total Images Processed", Value.num s.length]]
    let sB : List Row × List FeatureRecord :=
      if "avg_brightness" ∈ headers then
        let t := sumGetSt rows.2 "avg_brightness"
        (base ++ [[Value.str "Average Brightness",
                   Value.num (pyRound2 (t.1 / n))]], t.2)
      else (base, rows.2)
    let sWH : List Row × List FeatureRecord :=
      if "width" ∈ headers ∧ "height" ∈ headers then
        let w := sumGetSt sB.2 "width"
        let h := sumGetSt w.2 "height"
        (sB.1 ++ [[Value.str "Average Width", Value.num (pyRound2 (w.1 / n))],
                  [Value.str "Average Height", Value.num (pyRound2 (h.1 / n))]],
         h.2)
      else sB
    (.ok { summary := sWH.1, data := headers.map Value.str :: rows.1 }, sWH.2)

/-! ## Concrete sample inputs

`recA`/`recB` are the two records of the spec's end-to-end scenario (§8);
`recsW` has a `width` key but no `height` key anywhere. -/

def recA : FeatureRecord :=
  [("width", Value.num 100), ("height", Value.num 50),
   ("avg_brightness", Value.num 10)]

def recB : FeatureRecord :=
  [("width", Value.num 200), ("height", Value.num 100)]

def recsAB : List FeatureRecord :=
  [recA, recB]

def recsW : List FeatureRecord :=
  [[("width", Value.num 100)]]

def sampleImg : Img :=
  { height := 50, width := 100, channelsDim := some 3 }

def zeroImg : Img :=
  { height := 0, width := 10, channelsDim := some 3 }

def sampleP : Primitives :=
  { path := "sample.png"
    loadResult := some sampleImg
    ocrResult := .error "boom"
    fileSize := 2048
    meanGray := 100
    edgeCount := 7
    cluster := fun k => List.replicate k (1, 2, 3) }

def zeroHeightP : Primitives :=
  { sampleP with loadResult := some zeroImg }

/-! ## Helper lemmas -/

theorem dictGet_of_not_mem {r : FeatureRecord} {k : String} (d : Value)
    (h : k ∉ recordKeys r) : dictGet r k d = d := by
  induction r with
  | nil => rfl
  | cons kv rest ih =>
    obtain ⟨k2, v2⟩ := kv
    have h1 : ¬ k2 = k := fun he => h (by simp [recordKeys, he])
    have h2 : k ∉ recordKeys rest := fun hm =>
      h (by simp only [recordKeys, List.map_cons, List.mem_cons]
            exact Or.inr (by simpa [recordKeys] using hm))
    simp only [dictGet, if_neg h1]
    exact ih h2

theorem dictGet_of_mem {r : FeatureRecord} {k : String} {v : Value} (d : Value)
    (hnd : (recordKeys r).Nodup) (hm : (k, v) ∈ r) : dictGet r k d = v := by
  induction r with
  | nil => cases hm
  | cons kv rest ih =>
    obtain ⟨k2, v2⟩ := kv
    simp only [recordKeys, List.map_cons, List.nodup_cons] at hnd
    rcases List.mem_cons.mp hm with heq | hrest
    · rw [Prod.mk.injEq] at heq
      simp [dictGet, heq.1, heq.2]
    · have hk : ¬ k2 = k := by
        intro he
        exact hnd.1 (he ▸ List.mem_map.mpr ⟨(k, v), hrest, rfl⟩)
      simp only [dictGet, if_neg hk]
      exact ih (by simpa [recordKeys] using hnd.2) hrest

theorem sortedHeaders_sorted (records : List FeatureRecord) :
    List.Sorted (· ≤ ·) (sortedHeaders records) :=
  List.sorted_insertionSort _ _

theorem sortedHeaders_nodup (records : List FeatureRecord) :
    (sortedHeaders records).Nodup :=
  (List.perm_insertionSort _ _).nodup_iff.mpr (List.nodup_dedup _)

theorem mem_sortedHeaders (records : List FeatureRecord) (k : String) :
    k ∈ sortedHeaders records ↔ ∃ r ∈ records, k ∈ recordKeys r := by
  simp [sortedHeaders, allKeys, List.mem_dedup, List.mem_flatten]

/-! ## Claims about the exporter -/

/-- C4: both multi-record export and summary export fail with the empty-input
error (`ValueError("No features to export")`, the spec's `EmptyInputError`)
when given an empty record list, before any workbook is created — the error
result carries no table; on any non-empty list neither raises it and a table
is produced. -/
theorem c4_empty_input (records : List FeatureRecord) :
    export_multiple_images ([] : List FeatureRecord) = .error .emptyInput ∧
    export_with_summary ([] : List FeatureRecord) = .error .emptyInput ∧
    (records ≠ [] →
      (∃ t, export_multiple_images records = .ok t) ∧
      (∃ s, export_with_summary records = .ok s)) := by
  refine ⟨by simp [export_multiple_images], by simp [export_with_summary],
    fun hne => ⟨?_, ?_⟩⟩
  · exact ⟨_, by rw [export_multiple_images, if_neg hne]⟩
  · exact ⟨_, by rw [export_with_summary, if_neg hne]⟩

/-- C4 witness: at the two-record sample list, export succeeds. -/
theorem c4_witness :
    recsAB ≠ [] ∧
    (∃ t, export_multiple_images recsAB = .ok t) ∧
    (∃ s, export_with_summary recsAB = .ok s) :=
  ⟨by decide, (c4_empty_input recsAB).2.2 (by decide)⟩

/-- C9: single-record export writes the header row `["Feature", "Value"]`
followed by one `[key, value]` row per record entry, in the record's
insertion order. -/
theorem c9_single_image_layout (features : FeatureRecord) :
    (export_single_image features).length = features.length + 1 ∧
    (export_single_image features)[0]? =
      some [Value.str "Feature", Value.str "Value"] ∧
    ∀ i k v, features[i]? = some (k, v) →
      (export_single_image features)[i + 1]? = some [Value.str k, v] := by
  refine ⟨by simp [export_single_image], by simp [export_single_image],
    fun i k v h => ?_⟩
  simp [export_single_image, List.getElem?_cons_succ, List.getElem?_map, h]

/-- C9 witness: the three rows of the first sample record appear in order
after the header row. -/
theorem c9_witness :
    recA[0]? = some ("width", Value.num 100) ∧
    (export_single_image recA).length = recA.length + 1 ∧
    (export_single_image recA)[0 + 1]? =
      some [Value.str "width", Value.num 100] :=
  ⟨by decide, (c9_single_image_layout recA).1,
    (c9_single_image_layout recA).2.2 0 "width" (Value.num 100) (by decide)⟩

/-- C1: multi-record export of a non-empty record list yields a header row
equal to the lexicographically sorted union of all key sets (sorted,
duplicate-free, containing exactly the keys occurring in some record),
followed by one data row per record in input order; every data row has
exactly one cell per column, holding the record's value at that key when the
key is present and the empty string when it is absent. -/
theorem c1_multiple_images_table (records : List FeatureRecord)
    (hne : records ≠ []) :
    ∃ rows : List Row,
      export_multiple_images records =
        .ok ((sortedHeaders records).map Value.str :: rows) ∧
      List.Sorted (· ≤ ·) (sortedHeaders records) ∧
      (sortedHeaders records).Nodup ∧
      (∀ k, k ∈ sortedHeaders records ↔ ∃ r ∈ records, k ∈ recordKeys r) ∧
      rows.length = records.length ∧
      (∀ (i : Nat) (r : FeatureRecord), records[i]? = some r →
        ∃ row : Row, rows[i]? = some row ∧
          row.length = (sortedHeaders records).length ∧
          ∀ (j : Nat) (k : String), (sortedHeaders records)[j]? = some k →
            ((recordKeys r).Nodup → ∀ v, (k, v) ∈ r → row[j]? = some v) ∧
            (k ∉ recordKeys r → row[j]? = some (Value.str ""))) := by
  refine ⟨records.map (rowFor (sortedHeaders records)), ?_,
    sortedHeaders_sorted records, sortedHeaders_nodup records,
    mem_sortedHeaders records, by simp, ?_⟩
  · rw [export_multiple_images, if_neg hne]
  · intro i r hir
    refine ⟨rowFor (sortedHeaders records) r, ?_, by simp [rowFor],
      fun j k hjk => ⟨fun hnd v hv => ?_, fun hk => ?_⟩⟩
    · simp [List.getElem?_map, hir]
    · simp [rowFor, List.getElem?_map, hjk, dictGet_of_mem _ hnd hv]
    · simp [rowFor, List.getElem?_map, hjk, dictGet_of_not_mem _ hk]

/-- C1 witness: the table for the spec's two-record scenario. -/
theorem c1_witness :
    recsAB ≠ [] ∧
    (∃ rows : List Row,
      export_multiple_images recsAB =
        .ok ((sortedHeaders recsAB).map Value.str :: rows) ∧
      List.Sorted (· ≤ ·) (sortedHeaders recsAB) ∧
      (sortedHeaders recsAB).Nodup ∧
      (∀ k, k ∈ sortedHeaders recsAB ↔ ∃ r ∈ recsAB, k ∈ recordKeys r) ∧
      rows.length = recsAB.length ∧
      (∀ (i : Nat) (r : FeatureRecord), recsAB[i]? = some r →
        ∃ row : Row, rows[i]? = some row ∧
          row.length = (sortedHeaders recsAB).length ∧
          ∀ (j : Nat) (k : String), (sortedHeaders recsAB)[j]? = some k →
            ((recordKeys r).Nodup → ∀ v, (k, v) ∈ r → row[j]? = some v) ∧
            (k ∉ recordKeys r → row[j]? = some (Value.str "")))) :=
  ⟨by decide, c1_multiple_images_table recsAB (by decide)⟩

/-- C3: for a non-empty record list, the summary sheet's second row is
`Total Images Processed = N`; an `Average Brightness` row exists iff
`avg_brightness` is a key of at least one record, and when it exists its
value is `round(sum(f.get('avg_brightness', 0)) / N, 2)` — missing keys
contribute 0 to the sum while the denominator stays `N`. -/
theorem c3_summary_brightness (records : List FeatureRecord)
    (hne : records ≠ []) :
    ∃ s : SummaryExport, export_with_summary records = .ok s ∧
      s.summary[1]? = some [Value.str "Total Images Processed",
                            Value.num records.length] ∧
      ((∃ row ∈ s.summary, row[0]? = some (Value.str "Average Brightness")) ↔
        ∃ r ∈ records, "avg_brightness" ∈ recordKeys r) ∧
      (∀ row ∈ s.summary, row[0]? = some (Value.str "Average Brightness") →
        row = [Value.str "Average Brightness",
               Value.num (pyRound2 (sumGet records "avg_brightness" /
                 (records.length : ℚ)))]) := by
  refine ⟨_, by rw [export_with_summary, if_neg hne], ?_, ?_, ?_⟩
  · by_cases hb : "avg_brightness" ∈ sortedHeaders records <;>
      by_cases hwh : "width" ∈ sortedHeaders records ∧
        "height" ∈ sortedHeaders records <;>
      simp [summaryRows, hb, hwh]
  · rw [← mem_sortedHeaders records "avg_brightness"]
    by_cases hb : "avg_brightness" ∈ sortedHeaders records <;>
      by_cases hwh : "width" ∈ sortedHeaders records ∧
        "height" ∈ sortedHeaders records <;>
      simp [summaryRows, hb, hwh]
  · by_cases hb : "avg_brightness" ∈ sortedHeaders records <;>
      by_cases hwh : "width" ∈ sortedHeaders records ∧
        "height" ∈ sortedHeaders records <;>
      simp [summaryRows, hb, hwh]

/-- C3 witness: the spec's two-record scenario; the brightness mean is
`(10 + 0) / 2 = 5`. -/
theorem c3_witness :
    recsAB ≠ [] ∧
    (∃ s : SummaryExport, export_with_summary recsAB = .ok s ∧
      s.summary[1]? = some [Value.str "Total Images Processed",
                            Value.num recsAB.length] ∧
      ((∃ row ∈ s.summary, row[0]? = some (Value.str "Average Brightness")) ↔
        ∃ r ∈ recsAB, "avg_brightness" ∈ recordKeys r) ∧
      (∀ row ∈ s.summary, row[0]? = some (Value.str "Average Brightness") →
        row = [Value.str "Average Brightness",
               Value.num (pyRound2 (sumGet recsAB "avg_brightness" /
                 (recsAB.length : ℚ)))])) :=
  ⟨by decide, c3_summary_brightness recsAB (by decide)⟩

/-- C2 counterexample: on the one-record list whose single record has key
`width` (and no record anywhere has `height`), the code writes no
`Average Width` row at all — the summary sheet ends after the record count —
although `width` is present in the column set, because the source guards the
two means by the conjunction `'width' in headers and 'height' in headers`. -/
theorem c2_counterexample :
    ("width" ∈ sortedHeaders recsW) ∧
    export_with_summary recsW =
      .ok { summary := [[Value.str "Summary", Value.str ""],
                        [Value.str "Total Images Processed", Value.num 1]],
            data := [[Value.str "width"], [Value.num 100]] } := by
  constructor
  · decide
  · rfl

/-- C2 (amended): the mean-width and mean-height rows are computed together,
not independently: both rows are written (with missing values contributing 0
over denominator `N`) when each of `width` and `height` occurs in at least
one record, and when either column is absent from every record both rows are
skipped. -/
theorem c2_amended_mean_width_height (records : List FeatureRecord)
    (hne : records ≠ []) :
    ∃ s : SummaryExport, export_with_summary records = .ok s ∧
      (((∃ r ∈ records, "width" ∈ recordKeys r) ∧
        (∃ r ∈ records, "height" ∈ recordKeys r)) →
        [Value.str "Average Width",
         Value.num (pyRound2 (sumGet records "width" / (records.length : ℚ)))]
          ∈ s.summary ∧
        [Value.str "Average Height",
         Value.num (pyRound2 (sumGet records "height" / (records.length : ℚ)))]
          ∈ s.summary) ∧
      (¬ ((∃ r ∈ records, "width" ∈ recordKeys r) ∧
          (∃ r ∈ records, "height" ∈ recordKeys r)) →
        ∀ row ∈ s.summary,
          row[0]? ≠ some (Value.str "Average Width") ∧
          row[0]? ≠ some (Value.str "Average Height")) := by
  refine ⟨_, by rw [export_with_summary, if_neg hne], ?_, ?_⟩
  · rw [← mem_sortedHeaders records "width", ← mem_sortedHeaders records "height"]
    intro hwh
    by_cases hb : "avg_brightness" ∈ sortedHeaders records <;>
      simp [summaryRows, hb, hwh]
  · rw [← mem_sortedHeaders records "width", ← mem_sortedHeaders records "height"]
    intro hwh
    by_cases hb : "avg_brightness" ∈ sortedHeaders records <;>
      simp [summaryRows, hb, hwh]

/-- C2 witness: on the two-record scenario both columns are present, so both
mean rows appear; average width is 150 and average height 75. -/
theorem c2_witness :
    recsAB ≠ [] ∧
    (∃ s : SummaryExport, export_with_summary recsAB = .ok s ∧
      (((∃ r ∈ recsAB, "width" ∈ recordKeys r) ∧
        (∃ r ∈ recsAB, "height" ∈ recordKeys r)) →
        [Value.str "Average Width",
         Value.num (pyRound2 (sumGet recsAB "width" / (recsAB.length : ℚ)))]
          ∈ s.summary ∧
        [Value.str "Average Height",
         Value.num (pyRound2 (sumGet recsAB "height" / (recsAB.length : ℚ)))]
          ∈ s.summary) ∧
      (¬ ((∃ r ∈ recsAB, "width" ∈ recordKeys r) ∧
          (∃ r ∈ recsAB, "height" ∈ recordKeys r)) →
        ∀ row ∈ s.summary,
          row[0]? ≠ some (Value.str "Average Width") ∧
          row[0]? ≠ some (Value.str "Average Height"))) :=
  ⟨by decide, c2_amended_mean_width_height recsAB (by decide)⟩

/-! ## Claims about the extractor -/

theorem npUint8_le (q : ℚ) : npUint8 q ≤ 255 := by
  have h0 : 0 ≤ truncQ q % 256 := Int.emod_nonneg _ (by norm_num)
  have h1 : truncQ q % 256 < 256 := Int.emod_lt_of_pos _ (by norm_num)
  unfold npUint8
  omega

theorem get_image_properties_eq (P : Primitives) (img : Img)
    (hload : P.loadResult = some img) (hh : ¬ img.height = 0) :
    get_image_properties P =
      .ok [("width", Value.num img.width),
           ("height", Value.num img.height),
           ("channels", Value.num (img.channelsDim.getD 1)),
           ("file_size_kb", Value.num (pyRound2 ((P.fileSize : ℚ) / 1024))),
           ("aspect_ratio",
             Value.num (pyRound2 ((img.width : ℚ) / (img.height : ℚ)))),
           ("total_pixels", Value.num ((img.width : ℚ) * (img.height : ℚ)))] := by
  rw [get_image_properties, load_image, hload]
  simp [hh]

theorem extract_all_features_eq (P : Primitives) (img : Img)
    (hload : P.loadResult = some img) (hh : ¬ img.height = 0) :
    extract_all_features P =
      .ok ([("image_path", Value.str P.path),
            ("extracted_text", Value.str (extract_text P))] ++
           [("width", Value.num img.width),
            ("height", Value.num img.height),
            ("channels", Value.num (img.channelsDim.getD 1)),
            ("file_size_kb", Value.num (pyRound2 ((P.fileSize : ℚ) / 1024))),
            ("aspect_ratio",
              Value.num (pyRound2 ((img.width : ℚ) / (img.height : ℚ)))),
            ("total_pixels", Value.num ((img.width : ℚ) * (img.height : ℚ)))] ++
           [("avg_brightness", Value.num (pyRound2 P.meanGray)),
            ("edge_count", Value.num (P.edgeCount : ℚ))] ++
           colorEntries ((P.cluster 3).map npUint8Triple)) := by
  rw [extract_all_features, get_image_properties_eq P img hload hh,
    calculate_brightness, detect_edges, detect_dominant_colors,
    load_image, hload]

/-- C5: whenever extraction succeeds (image decodes with nonzero height and
the clustering primitive honours its contract of returning 3 centers for
k = 3), the record carries exactly the thirteen canonical keys — in
particular exactly three dominant-color entries `dominant_color_1/2/3` —
and each dominant-color value is the text `"RGB(r, g, b)"` for integers
`r`, `g`, `b` in `[0, 255]`. -/
theorem c5_dominant_colors (P : Primitives) (img : Img)
    (hload : P.loadResult = some img) (hh : ¬ img.height = 0)
    (hk : (P.cluster 3).length = 3) :
    ∃ (fr : FeatureRecord) (c1 c2 c3 : ℕ × ℕ × ℕ),
      extract_all_features P = .ok fr ∧
      recordKeys fr =
        ["image_path", "extracted_text", "width", "height", "channels",
         "file_size_kb", "aspect_ratio", "total_pixels", "avg_brightness",
         "edge_count", "dominant_color_1", "dominant_color_2",
         "dominant_color_3"] ∧
      dictLookup fr "dominant_color_1" = some (Value.str (fmtRGB c1)) ∧
      dictLookup fr "dominant_color_2" = some (Value.str (fmtRGB c2)) ∧
      dictLookup fr "dominant_color_3" = some (Value.str (fmtRGB c3)) ∧
      c1.1 ≤ 255 ∧ c1.2.1 ≤ 255 ∧ c1.2.2 ≤ 255 ∧
      c2.1 ≤ 255 ∧ c2.2.1 ≤ 255 ∧ c2.2.2 ≤ 255 ∧
      c3.1 ≤ 255 ∧ c3.2.1 ≤ 255 ∧ c3.2.2 ≤ 255 := by
  obtain ⟨a, b, c, habc⟩ := List.length_eq_three.mp hk
  have hE := extract_all_features_eq P img hload hh
  rw [habc] at hE
  have e1 : ("dominant_color_" ++ toString (0 + 1)) = "dominant_color_1" := by
    decide
  have e2 : ("dominant_color_" ++ toString (0 + 1 + 1)) = "dominant_color_2" := by
    decide
  have e3 : ("dominant_color_" ++ toString (0 + 1 + 1 + 1)) = "dominant_color_3" := by
    decide
  refine ⟨_, npUint8Triple a, npUint8Triple b, npUint8Triple c, hE,
    ?_, ?_, ?_, ?_,
    npUint8_le _, npUint8_le _, npUint8_le _, npUint8_le _, npUint8_le _,
    npUint8_le _, npUint8_le _, npUint8_le _, npUint8_le _⟩ <;>
    simp [recordKeys, colorEntries, colorEntriesFrom, List.map_cons,
      dictLookup, e1, e2, e3]

/-- C5 witness: the sample primitives decode a 100×50 image and cluster to
three copies of center (1, 2, 3). -/
theorem c5_witness :
    sampleP.loadResult = some sampleImg ∧ ¬ sampleImg.height = 0 ∧
    (sampleP.cluster 3).length = 3 ∧
    (∃ (fr : FeatureRecord) (c1 c2 c3 : ℕ × ℕ × ℕ),
      extract_all_features sampleP = .ok fr ∧
      recordKeys fr =
        ["image_path", "extracted_text", "width", "height", "channels",
         "file_size_kb", "aspect_ratio", "total_pixels", "avg_brightness",
         "edge_count", "dominant_color_1", "dominant_color_2",
         "dominant_color_3"] ∧
      dictLookup fr "dominant_color_1" = some (Value.str (fmtRGB c1)) ∧
      dictLookup fr "dominant_color_2" = some (Value.str (fmtRGB c2)) ∧
      dictLookup fr "dominant_color_3" = some (Value.str (fmtRGB c3)) ∧
      c1.1 ≤ 255 ∧ c1.2.1 ≤ 255 ∧ c1.2.2 ≤ 255 ∧
      c2.1 ≤ 255 ∧ c2.2.1 ≤ 255 ∧ c2.2.2 ≤ 255 ∧
      c3.1 ≤ 255 ∧ c3.2.1 ≤ 255 ∧ c3.2.2 ≤ 255) :=
  ⟨rfl, by decide, by decide,
    c5_dominant_colors sampleP sampleImg rfl (by decide) (by decide)⟩

/-- C6 counterexample: on a decoded zero-height image the properties
operation fails with the uncaught `ZeroDivisionError` of `width / height`
(`ExtractionErr.zeroDivision`), which is a different error from the
`ValueError` of `load_image` that realises the spec's `DecodeError`
(`ExtractionErr.loadFailure`). -/
theorem c6_counterexample :
    zeroHeightP.loadResult = some zeroImg ∧ zeroImg.height = 0 ∧
    get_image_properties zeroHeightP = .error ExtractionErr.zeroDivision ∧
    ExtractionErr.zeroDivision ≠ ExtractionErr.loadFailure := by
  refine ⟨rfl, rfl, ?_, by decide⟩
  rw [get_image_properties, load_image]
  simp [zeroHeightP, sampleP, zeroImg]

/-- C6 (amended): for every decoded image with nonzero height the properties
record's `aspect_ratio` equals `round(width / height, 2)`; for a decoded
image of height 0 the operation fails fatally — not silently — with the
uncaught `ZeroDivisionError` (a distinct error from the `DecodeError` /
`ValueError` used for undecodable images). -/
theorem c6_amended_aspect_ratio (P : Primitives) (img : Img)
    (hload : P.loadResult = some img) :
    (¬ img.height = 0 →
      ∃ fr, get_image_properties P = .ok fr ∧
        dictLookup fr "aspect_ratio" =
          some (Value.num (pyRound2 ((img.width : ℚ) / (img.height : ℚ))))) ∧
    (img.height = 0 →
      get_image_properties P = .error ExtractionErr.zeroDivision) := by
  constructor
  · intro hh
    refine ⟨_, get_image_properties_eq P img hload hh, ?_⟩
    simp [dictLookup]
  · intro hh
    rw [get_image_properties, load_image, hload]
    simp [hh]

/-- C6 witness: the sample 100×50 image gets its aspect ratio; the
zero-height image fails with the division-by-zero error. -/
theorem c6_witness :
    sampleP.loadResult = some sampleImg ∧ ¬ sampleImg.height = 0 ∧
    (∃ fr, get_image_properties sampleP = .ok fr ∧
      dictLookup fr "aspect_ratio" =
        some (Value.num
          (pyRound2 ((sampleImg.width : ℚ) / (sampleImg.height : ℚ))))) ∧
    zeroHeightP.loadResult = some zeroImg ∧ zeroImg.height = 0 ∧
    get_image_properties zeroHeightP = .error ExtractionErr.zeroDivision :=
  ⟨rfl, by decide,
    (c6_amended_aspect_ratio sampleP sampleImg rfl).1 (by decide),
    rfl, rfl,
    (c6_amended_aspect_ratio zeroHeightP zeroImg rfl).2 rfl⟩

/-- C7: for every decodable image with positive dimensions, the extracted
record stores `width` and `height` equal to the image's (positive)
dimensions and `total_pixels` equal to their product. -/
theorem c7_total_pixels (P : Primitives) (img : Img)
    (hload : P.loadResult = some img) (hw : 0 < img.width)
    (hh : 0 < img.height) :
    ∃ fr, extract_all_features P = .ok fr ∧
      dictLookup fr "width" = some (Value.num img.width) ∧
      dictLookup fr "height" = some (Value.num img.height) ∧
      0 < img.width ∧ 0 < img.height ∧
      dictLookup fr "total_pixels" =
        some (Value.num ((img.width : ℚ) * (img.height : ℚ))) := by
  have hh0 : ¬ img.height = 0 := Nat.pos_iff_ne_zero.mp hh
  refine ⟨_, extract_all_features_eq P img hload hh0, ?_, ?_, hw, hh, ?_⟩ <;>
    simp [dictLookup]

/-- C7 witness: the sample 100×50 image yields its dimensions and
5000 total pixels. -/
theorem c7_witness :
    sampleP.loadResult = some sampleImg ∧ 0 < sampleImg.width ∧
    0 < sampleImg.height ∧
    (∃ fr, extract_all_features sampleP = .ok fr ∧
      dictLookup fr "width" = some (Value.num sampleImg.width) ∧
      dictLookup fr "height" = some (Value.num sampleImg.height) ∧
      0 < sampleImg.width ∧ 0 < sampleImg.height ∧
      dictLookup fr "total_pixels" =
        some (Value.num ((sampleImg.width : ℚ) * (sampleImg.height : ℚ)))) :=
  ⟨rfl, by decide, by decide,
    c7_total_pixels sampleP sampleImg rfl (by decide) (by decide)⟩

/-- C8: the OCR step never propagates a failure: when the OCR primitive
fails with message `e`, `extract_text` returns the diagnostic string
`"Error extracting text: e"` instead, and whether `extract_all_features`
produces a record is unchanged by replacing the failing OCR outcome with any
successful one — an OCR failure never aborts the record. -/
theorem c8_ocr_never_aborts (P : Primitives) (e : String)
    (h : P.ocrResult = Except.error e) :
    extract_text P = "Error extracting text: " ++ e ∧
    ∀ t : String,
      ((∃ fr, extract_all_features P = .ok fr) ↔
        (∃ fr, extract_all_features
          { P with ocrResult := Except.ok t } = .ok fr)) := by
  constructor
  · rw [extract_text, h]
  · intro t
    have hgen : ∀ Q : Primitives,
        (∃ fr, extract_all_features Q = .ok fr) ↔
          (∃ img, Q.loadResult = some img ∧ ¬ img.height = 0) := by
      intro Q
      cases hQ : Q.loadResult with
      | none =>
        rw [extract_all_features, get_image_properties, load_image, hQ]
        simp
      | some img =>
        by_cases hh : img.height = 0
        · rw [extract_all_features, get_image_properties, load_image, hQ]
          simp [hh, hQ]
        · rw [extract_all_features_eq Q img hQ hh]
          simp [hQ, hh]
    rw [hgen P, hgen { P with ocrResult := Except.ok t }]

/-- C8 witness: the sample primitives' OCR block raises `"boom"`; the
diagnostic text is returned and extraction succeeds either way. -/
theorem c8_witness :
    sampleP.ocrResult = Except.error "boom" ∧
    extract_text sampleP = "Error extracting text: " ++ "boom" ∧
    ((∃ fr, extract_all_features sampleP = .ok fr) ↔
      (∃ fr, extract_all_features
        { sampleP with ocrResult := Except.ok "hi" } = .ok fr)) :=
  ⟨rfl, (c8_ocr_never_aborts sampleP "boom" rfl).1,
    (c8_ocr_never_aborts sampleP "boom" rfl).2 "hi"⟩

/-! ## The frame property of the exporter -/

theorem foldl_snd_eq {α β σ : Type} (f : β × σ → α → β × σ)
    (hf : ∀ acc x, (f acc x).2 = acc.2) :
    ∀ (l : List α) (acc : β × σ), (l.foldl f acc).2 = acc.2 := by
  intro l
  induction l with
  | nil => intro acc; rfl
  | cons a l ih =>
    intro acc
    rw [List.foldl_cons, ih, hf]

theorem gatherKeysSt_snd (s : List FeatureRecord) : (gatherKeysSt s).2 = s := by
  unfold gatherKeysSt
  apply foldl_snd_eq
  intro acc x
  rfl

theorem rowSt_snd (s : List FeatureRecord) (i : Nat) (headers : List String) :
    (rowSt s i headers).2 = s := by
  unfold rowSt
  apply foldl_snd_eq
  intro acc x
  rfl

theorem rowsSt_snd (s : List FeatureRecord) (headers : List String) :
    (rowsSt s headers).2 = s := by
  unfold rowsSt
  apply foldl_snd_eq
  intro acc i
  exact rowSt_snd acc.2 i headers

theorem sumGetSt_snd (s : List FeatureRecord) (k : String) :
    (sumGetSt s k).2 = s := by
  unfold sumGetSt
  apply foldl_snd_eq
  intro acc x
  rfl

/-- C10: no export method mutates the caller's records.  Expressed over the
dict-store embedding, in which every dict operation the source performs
(`keys()`, `get()`, `items()`) threads the store of record objects: after
each export method the store — the records list and every record mapping in
it — is exactly the input store. -/
theorem c10_exports_preserve_records (r : FeatureRecord)
    (records : List FeatureRecord) :
    (export_single_image_st r).2 = r ∧
    (export_multiple_images_st records).2 = records ∧
    (export_with_summary_st records).2 = records := by
  refine ⟨rfl, ?_, ?_⟩
  · by_cases hs : records = []
    · simp [export_multiple_images_st, hs]
    · simp only [export_multiple_images_st, if_neg hs]
      rw [rowsSt_snd, gatherKeysSt_snd]
  · by_cases hs : records = []
    · simp [export_with_summary_st, hs]
    · simp only [export_with_summary_st, if_neg hs]
      by_cases hb : "avg_brightness" ∈
          List.insertionSort (fun a b => a ≤ b) (gatherKeysSt records).1 <;>
        by_cases hwh : ("width" ∈
            List.insertionSort (fun a b => a ≤ b) (gatherKeysSt records).1 ∧
          "height" ∈
            List.insertionSort (fun a b => a ≤ b) (gatherKeysSt records).1) <;>
        simp only [hb, hwh, if_true, if_false, ite_true, ite_false,
          eq_self_iff_true, true_and, and_true, and_self] <;>
        simp [sumGetSt_snd, rowsSt_snd, gatherKeysSt_snd]

end ReadImageExcel
